import Mathlib

/-!
Verification of the Time::Moment core (`src/moment.h`).

The repository ships the C header `moment.h`, which fixes the numeric
constants, the `moment_t` record, the unit and component enumerations and
the signatures of every operation.  The bodies of the operations
(`moment.c`, `dt_core.c`) are not part of the sources, so each operation
below is modelled from the specification's description of it, while every
constant and type is taken verbatim from the header.

Machine integers (`int64_t`, `int32_t`) are embedded as `Int`; within the
validated ranges of the library no C computation overflows, so the
unbounded embedding agrees with the machine arithmetic.
-/

namespace TimeMoment

/-! ## Constants (from `moment.h`, lines 24-50) -/

def SECS_PER_DAY : Int := 86400

def NANOS_PER_SEC : Int := 1000000000

def MIN_UNIT_YEARS : Int := -10000

def MAX_UNIT_YEARS : Int := 10000

def MIN_UNIT_MONTHS : Int := -120000

def MAX_UNIT_MONTHS : Int := 120000

def MIN_UNIT_WEEKS : Int := -521775

def MAX_UNIT_WEEKS : Int := 521775

def MIN_UNIT_DAYS : Int := -3652425

def MAX_UNIT_DAYS : Int := 3652425

def MIN_UNIT_HOURS : Int := -87658200

def MAX_UNIT_HOURS : Int := 87658200

def MIN_UNIT_MINUTES : Int := -5259492000

def MAX_UNIT_MINUTES : Int := 5259492000

def MIN_UNIT_SECONDS : Int := -315569520000

def MAX_UNIT_SECONDS : Int := 315569520000

def MIN_UNIT_MILLIS : Int := -315569520000000

def MAX_UNIT_MILLIS : Int := 315569520000000

def MIN_UNIT_MICROS : Int := -315569520000000000

def MAX_UNIT_MICROS : Int := 315569520000000000

def MIN_RANGE : Int := 86400

def MAX_RANGE : Int := 315537983999

def UNIX_EPOCH : Int := 62135683200

def MIN_EPOCH_SEC : Int := -62135596800

def MAX_EPOCH_SEC : Int := 253402300799

/-- The macro `VALID_EPOCH_SEC(s)` from `moment.h` line 52. -/
def VALID_EPOCH_SEC (s : Int) : Bool :=
  MIN_EPOCH_SEC ≤ s && s ≤ MAX_EPOCH_SEC

/-! ## Data model (from `moment.h`, lines 55-91) -/

/-- The record `moment_t`: the `(sec, nsec, offset)` triple. -/
structure moment_t where
  sec : Int
  nsec : Int
  offset : Int
deriving DecidableEq

/-- The enumeration `moment_unit_t`. -/
inductive moment_unit_t where
  | MOMENT_UNIT_YEARS
  | MOMENT_UNIT_MONTHS
  | MOMENT_UNIT_WEEKS
  | MOMENT_UNIT_DAYS
  | MOMENT_UNIT_HOURS
  | MOMENT_UNIT_MINUTES
  | MOMENT_UNIT_SECONDS
  | MOMENT_UNIT_MILLIS
  | MOMENT_UNIT_MICROS
  | MOMENT_UNIT_NANOS
deriving DecidableEq

/-- The enumeration `moment_component_t`. -/
inductive moment_component_t where
  | MOMENT_COMPONENT_YEAR
  | MOMENT_COMPONENT_MONTH_OF_YEAR
  | MOMENT_COMPONENT_WEEK_OF_YEAR
  | MOMENT_COMPONENT_DAY_OF_YEAR
  | MOMENT_COMPONENT_DAY_OF_QUARTER
  | MOMENT_COMPONENT_DAY_OF_MONTH
  | MOMENT_COMPONENT_DAY_OF_WEEK
  | MOMENT_COMPONENT_HOUR_OF_DAY
  | MOMENT_COMPONENT_MINUTE_OF_HOUR
  | MOMENT_COMPONENT_MINUTE_OF_DAY
  | MOMENT_COMPONENT_SECOND_OF_MINUTE
  | MOMENT_COMPONENT_SECOND_OF_DAY
  | MOMENT_COMPONENT_MILLI_OF_SECOND
  | MOMENT_COMPONENT_MILLI_OF_DAY
  | MOMENT_COMPONENT_MICRO_OF_SECOND
  | MOMENT_COMPONENT_NANO_OF_SECOND
deriving DecidableEq

/-- Modelled from the spec: the error taxonomy of §7 (the C code signals
these by croaking; the error bodies are not under `src/`). -/
inductive MomentError where
  | InvalidComponent
  | InvalidOffset
  | InvalidEpoch
  | UnitOutOfRange
  | OutOfRange
  | InvalidPrecision
deriving DecidableEq

deriving instance DecidableEq for Except

/-- The MIN/MAX unit constants as the header defines them: one pair per
unit from `MIN_UNIT_YEARS` through `MAX_UNIT_MICROS`; the header defines
no constants for the nanoseconds unit. -/
def unit_min_max (u : moment_unit_t) : Option (Int × Int) :=
  match u with
  | .MOMENT_UNIT_YEARS => some (MIN_UNIT_YEARS, MAX_UNIT_YEARS)
  | .MOMENT_UNIT_MONTHS => some (MIN_UNIT_MONTHS, MAX_UNIT_MONTHS)
  | .MOMENT_UNIT_WEEKS => some (MIN_UNIT_WEEKS, MAX_UNIT_WEEKS)
  | .MOMENT_UNIT_DAYS => some (MIN_UNIT_DAYS, MAX_UNIT_DAYS)
  | .MOMENT_UNIT_HOURS => some (MIN_UNIT_HOURS, MAX_UNIT_HOURS)
  | .MOMENT_UNIT_MINUTES => some (MIN_UNIT_MINUTES, MAX_UNIT_MINUTES)
  | .MOMENT_UNIT_SECONDS => some (MIN_UNIT_SECONDS, MAX_UNIT_SECONDS)
  | .MOMENT_UNIT_MILLIS => some (MIN_UNIT_MILLIS, MAX_UNIT_MILLIS)
  | .MOMENT_UNIT_MICROS => some (MIN_UNIT_MICROS, MAX_UNIT_MICROS)
  | .MOMENT_UNIT_NANOS => none

/-- The scalar of a unit is acceptable when it lies in the header's
MIN/MAX range for that unit; the nanoseconds unit has no range. -/
def unit_in_range (u : moment_unit_t) (v : Int) : Bool :=
  match unit_min_max u with
  | some lohi => lohi.1 ≤ v && v ≤ lohi.2
  | none => true

/-- The fixed-width units: every unit except years and months. -/
def fixed_width_unit (u : moment_unit_t) : Bool :=
  match u with
  | .MOMENT_UNIT_YEARS => false
  | .MOMENT_UNIT_MONTHS => false
  | _ => true

/-! ## Calendar kernel (L1)

Modelled from the spec §4.1: `dt_core` is not under `src/`; the kernel is
the standard proleptic-Gregorian / Rata Die arithmetic the spec describes.
-/

/-- Modelled from the spec: the Gregorian leap rule (§4.1). -/
def is_leap_year (y : Int) : Bool :=
  (y % 4 == 0 && y % 100 != 0) || y % 400 == 0

/-- Modelled from the spec: `length_of_year(Y)` (§4.1). -/
def length_of_year (y : Int) : Int :=
  if is_leap_year y then 366 else 365

/-- Modelled from the spec: `length_of_month(Y,M)` (§4.1). -/
def length_of_month (y M : Int) : Int :=
  if M = 2 then (if is_leap_year y then 29 else 28)
  else if M = 4 ∨ M = 6 ∨ M = 9 ∨ M = 11 then 30
  else 31

/-- Modelled from the spec: days in year `y` strictly before month `M`. -/
def days_before_month (y M : Int) : Int :=
  let base : Int :=
    if M ≤ 1 then 0 else if M = 2 then 31 else if M = 3 then 59
    else if M = 4 then 90 else if M = 5 then 120 else if M = 6 then 151
    else if M = 7 then 181 else if M = 8 then 212 else if M = 9 then 243
    else if M = 10 then 273 else if M = 11 then 304 else 334
  if 3 ≤ M ∧ is_leap_year y then base + 1 else base

/-- Modelled from the spec: `day_of_year(Y,M,D)` (§4.1). -/
def day_of_year_of_ymd (y M D : Int) : Int :=
  days_before_month y M + D

/-- Modelled from the spec: `dt_from_ymd(Y,M,D) → rdn`, the Rata Die day
number of a proleptic Gregorian date (§4.1). -/
def dt_from_ymd (y M D : Int) : Int :=
  365 * (y - 1) + (y - 1) / 4 - (y - 1) / 100 + (y - 1) / 400 +
    days_before_month y M + D

/-- Modelled from the spec: `ymd_from_rdn(rdn) → (Y,M,D)`, the inverse of
`dt_from_ymd` (§4.1), by the standard civil-from-days algorithm. -/
def ymd_from_rdn (rdn : Int) : Int × Int × Int :=
  let z := rdn + 305
  let era := z / 146097
  let doe := z - era * 146097
  let yoe := (doe - doe / 1460 + doe / 36524 - doe / 146096) / 365
  let doy := doe - (365 * yoe + yoe / 4 - yoe / 100)
  let mp := (5 * doy + 2) / 153
  let d := doy - (153 * mp + 2) / 5 + 1
  let m := if mp < 10 then mp + 3 else mp - 9
  let y := yoe + era * 400
  (if m ≤ 2 then y + 1 else y, m, d)

/-- Modelled from the spec: quarter of a month, `((M-1)/3)+1` (§4.1). -/
def quarter_of_month (M : Int) : Int :=
  (M - 1) / 3 + 1

/-- Modelled from the spec: days in quarter `q` of year `y`. -/
def length_of_quarter (y q : Int) : Int :=
  if q = 1 then (if is_leap_year y then 91 else 90)
  else if q = 2 then 91
  else 92

/-- Modelled from the spec: ISO day of week of a Rata Die day number,
Monday = 1 .. Sunday = 7 (§4.1); Rata Die day 1 is a Monday. -/
def day_of_week_of_rdn (rdn : Int) : Int :=
  (rdn - 1) % 7 + 1

/-! ## Moment value (L2) -/

/-- Local Rata-Die seconds, `moment_local_rd_seconds` (header line 107):
the stored local second count. -/
def moment_local_rd_seconds (m : moment_t) : Int :=
  m.sec

/-- Instant Rata-Die seconds, `moment_instant_rd_seconds` (header line
106): the stored seconds shifted to UTC. -/
def moment_instant_rd_seconds (m : moment_t) : Int :=
  m.sec - m.offset * 60

/-- Unix epoch seconds, `moment_epoch` (header line 136); spec §4.3:
`sec - offset*60 - UNIX_EPOCH_CONST`. -/
def moment_epoch (m : moment_t) : Int :=
  m.sec - m.offset * 60 - UNIX_EPOCH

/-- The §3 invariants of a moment: nanosecond field in `[0, 1e9)`, offset
in `[-1440, 1440]`, UTC instant within `[MIN_RANGE, MAX_RANGE]`. -/
def moment_valid (m : moment_t) : Prop :=
  0 ≤ m.nsec ∧ m.nsec < NANOS_PER_SEC ∧
  -1440 ≤ m.offset ∧ m.offset ≤ 1440 ∧
  MIN_RANGE ≤ moment_instant_rd_seconds m ∧
  moment_instant_rd_seconds m ≤ MAX_RANGE

instance (m : moment_t) : Decidable (moment_valid m) := by
  unfold moment_valid
  infer_instance

/-- Modelled from the spec: the common exit of every operation that
assembles a moment from local seconds — the assembled value is returned if
its UTC instant lies in range and the operation fails otherwise (§4.2,
§4.4, §7). -/
def moment_from_local (sec nsec offset : Int) : Except MomentError moment_t :=
  if MIN_RANGE ≤ sec - offset * 60 ∧ sec - offset * 60 ≤ MAX_RANGE then
    .ok ⟨sec, nsec, offset⟩
  else
    .error .OutOfRange

/-- Modelled from the spec: `new_from_fields` / `THX_moment_new` (§4.2):
validate every field, then assemble `sec = rdn*86400 + h*3600 + m*60 + s`. -/
def moment_new (Y M D h mi s ns offset : Int) : Except MomentError moment_t :=
  if 1 ≤ Y ∧ Y ≤ 9999 ∧ 1 ≤ M ∧ M ≤ 12 ∧ 1 ≤ D ∧ D ≤ length_of_month Y M ∧
      0 ≤ h ∧ h ≤ 23 ∧ 0 ≤ mi ∧ mi ≤ 59 ∧ 0 ≤ s ∧ s ≤ 59 ∧
      0 ≤ ns ∧ ns ≤ 999999999 then
    if -1440 ≤ offset ∧ offset ≤ 1440 then
      moment_from_local (dt_from_ymd Y M D * 86400 + h * 3600 + mi * 60 + s)
        ns offset
    else
      .error .InvalidOffset
  else
    .error .InvalidComponent

/-- Modelled from the spec: `from_epoch` / `THX_moment_from_epoch` with a
nanosecond sub-second argument (§4.2): requires `VALID_EPOCH_SEC`, then
`sec = unix_sec + UNIX_EPOCH_CONST + offset*60`. -/
def moment_from_epoch (sec nsec offset : Int) : Except MomentError moment_t :=
  if VALID_EPOCH_SEC sec then
    if 0 ≤ nsec ∧ nsec < NANOS_PER_SEC then
      if -1440 ≤ offset ∧ offset ≤ 1440 then
        moment_from_local (sec + UNIX_EPOCH + offset * 60) nsec offset
      else
        .error .InvalidOffset
    else
      .error .InvalidComponent
  else
    .error .InvalidEpoch

/-- Modelled from the spec: rounding half-to-even to an integer (§4.2,
`from_epoch_real`'s prescribed rounding mode). -/
def round_half_even (q : ℚ) : Int :=
  let f := ⌊q⌋
  let r := q - f
  if r < 1 / 2 then f
  else if 1 / 2 < r then f + 1
  else if f % 2 = 0 then f else f + 1

/-- Modelled from the spec: `from_epoch_real` / `THX_moment_from_epoch_nv`
(§4.2).  The real-valued Unix-epoch second is embedded as an exact
rational; the integer part is split off, the fractional part is scaled by
1e9 and rounded half-to-even to nanoseconds (with the carry into seconds
this can produce), the offset is 0, and the range invariants must still
hold after rounding. -/
def moment_from_epoch_nv (sec : ℚ) : Except MomentError moment_t :=
  let n := ⌊sec⌋
  let ns := round_half_even ((sec - n) * 1000000000)
  let n2 := if ns = 1000000000 then n + 1 else n
  let ns2 := if ns = 1000000000 then 0 else ns
  if VALID_EPOCH_SEC n2 then
    moment_from_local (n2 + UNIX_EPOCH) ns2 0
  else
    .error .InvalidEpoch

/-- Modelled from the spec: `from_julian_date` / `THX_moment_from_jd`
(§4.2).  The Julian date and the reference epoch (passed in, per the
header signature) are embedded as exact rationals; `jd + epoch` is a
fractional Rata Die day, split into an integer day, second-of-day and
nanoseconds; the fraction is truncated to `precision` digits of a second
(a precision outside `[-9, 9]` maps to no truncation, §4.2); the offset
is 0. -/
def moment_from_jd (jd epoch : ℚ) (precision : Int) :
    Except MomentError moment_t :=
  let p := if precision < -9 ∨ 9 < precision then 9 else precision
  let t := jd + epoch
  let rdn := ⌊t⌋
  let nod := ⌊(t - rdn) * 86400000000000⌋
  let tp := (10 : Int) ^ (9 - p).toNat
  let nod2 := nod - nod % tp
  moment_from_local (rdn * SECS_PER_DAY + nod2 / 1000000000)
    (nod2 % 1000000000) 0

/-! ## Offset transformations (§4.6) -/

/-- Modelled from the spec: `with_offset_same_instant` (§4.6): shift `sec`
by `(new_offset - old_offset)*60`, keep `nsec`, store the new offset. -/
def moment_with_offset_same_instant (m : moment_t) (offset : Int) :
    Except MomentError moment_t :=
  if -1440 ≤ offset ∧ offset ≤ 1440 then
    moment_from_local (m.sec + (offset - m.offset) * 60) m.nsec offset
  else
    .error .InvalidOffset

/-- Modelled from the spec: `with_offset_same_local` (§4.6): keep `sec`
and `nsec`, replace only the offset. -/
def moment_with_offset_same_local (m : moment_t) (offset : Int) :
    Except MomentError moment_t :=
  if -1440 ≤ offset ∧ offset ≤ 1440 then
    moment_from_local m.sec m.nsec offset
  else
    .error .InvalidOffset

/-! ## Arithmetic (L3, §4.4) -/

/-- Modelled from the spec: the fixed-width adjustment of §4.4 — add a
(signed) number of seconds and of nanoseconds to the stored fields,
carrying nanoseconds into seconds with floored division. -/
def moment_plus_time (m : moment_t) (dsec dns : Int) :
    Except MomentError moment_t :=
  moment_from_local (m.sec + dsec + (m.nsec + dns) / NANOS_PER_SEC)
    ((m.nsec + dns) % NANOS_PER_SEC) m.offset

/-- Modelled from the spec: the calendar-width adjustment of §4.4 —
decompose the local wall time into `(Y, M, D, time_of_day, ns)`, advance
the month count, clamp the day to the target month's length, reassemble. -/
def moment_plus_months (m : moment_t) (dm : Int) :
    Except MomentError moment_t :=
  let rdn := m.sec / SECS_PER_DAY
  let sod := m.sec % SECS_PER_DAY
  let ymd := ymd_from_rdn rdn
  let total := ymd.1 * 12 + (ymd.2.1 - 1) + dm
  let y2 := total / 12
  let m2 := total % 12 + 1
  let d2 := min ymd.2.2 (length_of_month y2 m2)
  moment_from_local (dt_from_ymd y2 m2 d2 * SECS_PER_DAY + sod) m.nsec
    m.offset

/-- Modelled from the spec: `plus_unit` / `THX_moment_plus_unit` (§4.4):
check the scalar against the unit's header range (the nanoseconds unit has
none), then dispatch to the calendar-width or fixed-width adjustment. -/
def moment_plus_unit (m : moment_t) (u : moment_unit_t) (v : Int) :
    Except MomentError moment_t :=
  match u with
  | .MOMENT_UNIT_YEARS =>
      if MIN_UNIT_YEARS ≤ v ∧ v ≤ MAX_UNIT_YEARS then
        moment_plus_months m (v * 12)
      else .error .UnitOutOfRange
  | .MOMENT_UNIT_MONTHS =>
      if MIN_UNIT_MONTHS ≤ v ∧ v ≤ MAX_UNIT_MONTHS then
        moment_plus_months m v
      else .error .UnitOutOfRange
  | .MOMENT_UNIT_WEEKS =>
      if MIN_UNIT_WEEKS ≤ v ∧ v ≤ MAX_UNIT_WEEKS then
        moment_plus_time m (v * 7 * 86400) 0
      else .error .UnitOutOfRange
  | .MOMENT_UNIT_DAYS =>
      if MIN_UNIT_DAYS ≤ v ∧ v ≤ MAX_UNIT_DAYS then
        moment_plus_time m (v * 86400) 0
      else .error .UnitOutOfRange
  | .MOMENT_UNIT_HOURS =>
      if MIN_UNIT_HOURS ≤ v ∧ v ≤ MAX_UNIT_HOURS then
        moment_plus_time m (v * 3600) 0
      else .error .UnitOutOfRange
  | .MOMENT_UNIT_MINUTES =>
      if MIN_UNIT_MINUTES ≤ v ∧ v ≤ MAX_UNIT_MINUTES then
        moment_plus_time m (v * 60) 0
      else .error .UnitOutOfRange
  | .MOMENT_UNIT_SECONDS =>
      if MIN_UNIT_SECONDS ≤ v ∧ v ≤ MAX_UNIT_SECONDS then
        moment_plus_time m v 0
      else .error .UnitOutOfRange
  | .MOMENT_UNIT_MILLIS =>
      if MIN_UNIT_MILLIS ≤ v ∧ v ≤ MAX_UNIT_MILLIS then
        moment_plus_time m 0 (v * 1000000)
      else .error .UnitOutOfRange
  | .MOMENT_UNIT_MICROS =>
      if MIN_UNIT_MICROS ≤ v ∧ v ≤ MAX_UNIT_MICROS then
        moment_plus_time m 0 (v * 1000)
      else .error .UnitOutOfRange
  | .MOMENT_UNIT_NANOS =>
      moment_plus_time m 0 v

/-- Modelled from the spec: `minus_unit` / `THX_moment_minus_unit` (§4.4):
defined as `plus_unit(-v)`; the unit ranges are symmetric, so the check on
`-v` is the same check as on `v`. -/
def moment_minus_unit (m : moment_t) (u : moment_unit_t) (v : Int) :
    Except MomentError moment_t :=
  moment_plus_unit m u (-v)

/-! ## Component extraction (§4.3) -/

/-- Modelled from the spec: `moment_year` (§4.3), via the local day. -/
def moment_year (m : moment_t) : Int :=
  (ymd_from_rdn (m.sec / SECS_PER_DAY)).1

/-- Modelled from the spec: `moment_month` (§4.3). -/
def moment_month (m : moment_t) : Int :=
  (ymd_from_rdn (m.sec / SECS_PER_DAY)).2.1

/-- Modelled from the spec: `moment_day_of_month` (§4.3). -/
def moment_day_of_month (m : moment_t) : Int :=
  (ymd_from_rdn (m.sec / SECS_PER_DAY)).2.2

/-! ## Snap operations (§4.7) -/

/-- Modelled from the spec: `at_utc` (§4.7), a same-instant change to
offset 0. -/
def moment_at_utc (m : moment_t) : Except MomentError moment_t :=
  moment_with_offset_same_instant m 0

/-- Modelled from the spec: `at_midnight` (§4.7): zero the second-of-day
and the nanoseconds, keep the local date and the offset. -/
def moment_at_midnight (m : moment_t) : Except MomentError moment_t :=
  moment_from_local (m.sec / SECS_PER_DAY * SECS_PER_DAY) 0 m.offset

/-- Modelled from the spec: `at_noon` (§4.7): second-of-day 43200,
nanoseconds 0. -/
def moment_at_noon (m : moment_t) : Except MomentError moment_t :=
  moment_from_local (m.sec / SECS_PER_DAY * SECS_PER_DAY + 43200) 0 m.offset

/-- Modelled from the spec: `at_last_day_of_month` (§4.7): move the day of
month to the month's length, keep time-of-day and offset. -/
def moment_at_last_day_of_month (m : moment_t) : Except MomentError moment_t :=
  let ymd := ymd_from_rdn (m.sec / SECS_PER_DAY)
  moment_from_local
    (dt_from_ymd ymd.1 ymd.2.1 (length_of_month ymd.1 ymd.2.1) * SECS_PER_DAY +
      m.sec % SECS_PER_DAY)
    m.nsec m.offset

/-- Modelled from the spec: `at_last_day_of_quarter` (§4.7). -/
def moment_at_last_day_of_quarter (m : moment_t) :
    Except MomentError moment_t :=
  let ymd := ymd_from_rdn (m.sec / SECS_PER_DAY)
  let qm := 3 * quarter_of_month ymd.2.1
  moment_from_local
    (dt_from_ymd ymd.1 qm (length_of_month ymd.1 qm) * SECS_PER_DAY +
      m.sec % SECS_PER_DAY)
    m.nsec m.offset

/-- Modelled from the spec: `at_last_day_of_year` (§4.7): December 31. -/
def moment_at_last_day_of_year (m : moment_t) : Except MomentError moment_t :=
  let ymd := ymd_from_rdn (m.sec / SECS_PER_DAY)
  moment_from_local
    (dt_from_ymd ymd.1 12 31 * SECS_PER_DAY + m.sec % SECS_PER_DAY)
    m.nsec m.offset

/-! ## with_component (§4.5)

Modelled from the spec: `THX_moment_with_component`.  The §4.5 table gives
the accepted range and behaviour of fifteen components; it gives no
behaviour for `week_of_year`, which is therefore modelled as rejecting its
argument. -/
def moment_with_component (m : moment_t) (c : moment_component_t) (v : Int) :
    Except MomentError moment_t :=
  let rdn := m.sec / SECS_PER_DAY
  let sod := m.sec % SECS_PER_DAY
  let ymd := ymd_from_rdn rdn
  match c with
  | .MOMENT_COMPONENT_YEAR =>
      if 1 ≤ v ∧ v ≤ 9999 then
        moment_from_local
          (dt_from_ymd v ymd.2.1 (min ymd.2.2 (length_of_month v ymd.2.1)) *
            SECS_PER_DAY + sod) m.nsec m.offset
      else .error .InvalidComponent
  | .MOMENT_COMPONENT_MONTH_OF_YEAR =>
      if 1 ≤ v ∧ v ≤ 12 then
        moment_from_local
          (dt_from_ymd ymd.1 v (min ymd.2.2 (length_of_month ymd.1 v)) *
            SECS_PER_DAY + sod) m.nsec m.offset
      else .error .InvalidComponent
  | .MOMENT_COMPONENT_WEEK_OF_YEAR =>
      .error .InvalidComponent
  | .MOMENT_COMPONENT_DAY_OF_YEAR =>
      if 1 ≤ v ∧ v ≤ length_of_year ymd.1 then
        moment_from_local
          ((dt_from_ymd ymd.1 1 1 - 1 + v) * SECS_PER_DAY + sod)
          m.nsec m.offset
      else .error .InvalidComponent
  | .MOMENT_COMPONENT_DAY_OF_QUARTER =>
      if 1 ≤ v ∧ v ≤ length_of_quarter ymd.1 (quarter_of_month ymd.2.1) then
        moment_from_local
          ((dt_from_ymd ymd.1 (3 * quarter_of_month ymd.2.1 - 2) 1 - 1 + v) *
            SECS_PER_DAY + sod) m.nsec m.offset
      else .error .InvalidComponent
  | .MOMENT_COMPONENT_DAY_OF_MONTH =>
      if 1 ≤ v ∧ v ≤ length_of_month ymd.1 ymd.2.1 then
        moment_from_local
          (dt_from_ymd ymd.1 ymd.2.1 v * SECS_PER_DAY + sod) m.nsec m.offset
      else .error .InvalidComponent
  | .MOMENT_COMPONENT_DAY_OF_WEEK =>
      if 1 ≤ v ∧ v ≤ 7 then
        moment_from_local
          ((rdn - day_of_week_of_rdn rdn + v) * SECS_PER_DAY + sod)
          m.nsec m.offset
      else .error .InvalidComponent
  | .MOMENT_COMPONENT_HOUR_OF_DAY =>
      if 0 ≤ v ∧ v ≤ 23 then
        moment_from_local
          (rdn * SECS_PER_DAY + v * 3600 + sod % 3600) m.nsec m.offset
      else .error .InvalidComponent
  | .MOMENT_COMPONENT_MINUTE_OF_HOUR =>
      if 0 ≤ v ∧ v ≤ 59 then
        moment_from_local
          (rdn * SECS_PER_DAY + sod - sod % 3600 + v * 60 + sod % 60)
          m.nsec m.offset
      else .error .InvalidComponent
  | .MOMENT_COMPONENT_MINUTE_OF_DAY =>
      if 0 ≤ v ∧ v ≤ 1439 then
        moment_from_local
          (rdn * SECS_PER_DAY + v * 60 + sod % 60) m.nsec m.offset
      else .error .InvalidComponent
  | .MOMENT_COMPONENT_SECOND_OF_MINUTE =>
      if 0 ≤ v ∧ v ≤ 59 then
        moment_from_local
          (rdn * SECS_PER_DAY + sod - sod % 60 + v) m.nsec m.offset
      else .error .InvalidComponent
  | .MOMENT_COMPONENT_SECOND_OF_DAY =>
      if 0 ≤ v ∧ v ≤ 86399 then
        moment_from_local (rdn * SECS_PER_DAY + v) m.nsec m.offset
      else .error .InvalidComponent
  | .MOMENT_COMPONENT_MILLI_OF_SECOND =>
      if 0 ≤ v ∧ v ≤ 999 then
        moment_from_local m.sec (v * 1000000 + m.nsec % 1000000) m.offset
      else .error .InvalidComponent
  | .MOMENT_COMPONENT_MILLI_OF_DAY =>
      if 0 ≤ v ∧ v ≤ 86399999 then
        moment_from_local (rdn * SECS_PER_DAY + v / 1000)
          (v % 1000 * 1000000) m.offset
      else .error .InvalidComponent
  | .MOMENT_COMPONENT_MICRO_OF_SECOND =>
      if 0 ≤ v ∧ v ≤ 999999 then
        moment_from_local m.sec (v * 1000 + m.nsec % 1000) m.offset
      else .error .InvalidComponent
  | .MOMENT_COMPONENT_NANO_OF_SECOND =>
      if 0 ≤ v ∧ v ≤ 999999999 then
        moment_from_local m.sec v m.offset
      else .error .InvalidComponent

/-! ## Comparison (L4, §4.8) -/

/-- Comparison by instant, `moment_compare_instant` (header line 114);
spec §4.8: lexicographic on `(sec - offset*60, nsec)`. -/
def moment_compare_instant (a b : moment_t) : Int :=
  if a.sec - a.offset * 60 < b.sec - b.offset * 60 then -1
  else if b.sec - b.offset * 60 < a.sec - a.offset * 60 then 1
  else if a.nsec < b.nsec then -1
  else if b.nsec < a.nsec then 1
  else 0

/-- Structural equality, `moment_equals` (header line 116); spec §4.8:
all three fields equal. -/
def moment_equals (a b : moment_t) : Bool :=
  a.sec == b.sec && a.nsec == b.nsec && a.offset == b.offset

/-! ## Helper lemmas -/

theorem moment_from_local_ok {sec nsec offset : Int} {m : moment_t}
    (h : moment_from_local sec nsec offset = .ok m) :
    m = ⟨sec, nsec, offset⟩ ∧
    MIN_RANGE ≤ sec - offset * 60 ∧ sec - offset * 60 ≤ MAX_RANGE := by
  unfold moment_from_local at h
  split at h
  · next hc => injection h with h; exact ⟨h.symm, hc.1, hc.2⟩
  · exact Except.noConfusion h

theorem moment_from_local_valid {sec nsec offset : Int} {m : moment_t}
    (h : moment_from_local sec nsec offset = .ok m)
    (hn1 : 0 ≤ nsec) (hn2 : nsec < NANOS_PER_SEC)
    (ho1 : -1440 ≤ offset) (ho2 : offset ≤ 1440) :
    moment_valid m := by
  obtain ⟨hm, h1, h2⟩ := moment_from_local_ok h
  subst hm
  exact ⟨hn1, hn2, ho1, ho2, h1, h2⟩

theorem moment_plus_time_valid {m m2 : moment_t} {dsec dns : Int}
    (hv : moment_valid m) (h : moment_plus_time m dsec dns = .ok m2) :
    moment_valid m2 := by
  obtain ⟨_, _, ho1, ho2, _, _⟩ := hv
  unfold moment_plus_time at h
  refine moment_from_local_valid h ?_ ?_ ho1 ho2
  · exact Int.emod_nonneg _ (by unfold NANOS_PER_SEC; omega)
  · exact Int.emod_lt_of_pos _ (by unfold NANOS_PER_SEC; omega)

theorem moment_plus_months_valid {m m2 : moment_t} {dm : Int}
    (hv : moment_valid m) (h : moment_plus_months m dm = .ok m2) :
    moment_valid m2 := by
  obtain ⟨hn1, hn2, ho1, ho2, _, _⟩ := hv
  unfold moment_plus_months at h
  exact moment_from_local_valid h hn1 hn2 ho1 ho2

theorem moment_plus_unit_valid {m m2 : moment_t} {u : moment_unit_t}
    {v : Int} (hv : moment_valid m) (h : moment_plus_unit m u v = .ok m2) :
    moment_valid m2 := by
  cases u
  all_goals simp only [moment_plus_unit] at h
  case MOMENT_UNIT_NANOS => exact moment_plus_time_valid hv h
  case MOMENT_UNIT_YEARS =>
    split at h
    · exact moment_plus_months_valid hv h
    · exact Except.noConfusion h
  case MOMENT_UNIT_MONTHS =>
    split at h
    · exact moment_plus_months_valid hv h
    · exact Except.noConfusion h
  all_goals
    split at h
    case isTrue => exact moment_plus_time_valid hv h
    case isFalse => exact Except.noConfusion h

/-- The carry arithmetic of the fixed-width adjustment is reversible:
taking `dns` back out of the normalised pair restores the original
nanosecond field and cancels the carried seconds. -/
theorem carry_roundtrip {ns dns : Int} (h0 : 0 ≤ ns) (h1 : ns < 1000000000) :
    ((ns + dns) % 1000000000 + -dns) / 1000000000 =
      -((ns + dns) / 1000000000) ∧
    ((ns + dns) % 1000000000 + -dns) % 1000000000 = ns := by
  have hq : (1000000000 : Int) * ((ns + dns) / 1000000000) +
      (ns + dns) % 1000000000 = ns + dns := Int.ediv_add_emod _ _
  have key : (ns + dns) % 1000000000 + -dns =
      ns + (1000000000 : Int) * (-((ns + dns) / 1000000000)) := by omega
  constructor
  · rw [key, Int.add_mul_ediv_left _ _ (by omega : (1000000000 : Int) ≠ 0),
      Int.ediv_eq_zero_of_lt h0 h1]
    omega
  · rw [key, Int.add_mul_emod_self_left, Int.emod_eq_of_lt h0 h1]

theorem moment_plus_time_roundtrip {m m2 : moment_t} {dsec dns : Int}
    (hv : moment_valid m) (h : moment_plus_time m dsec dns = .ok m2) :
    moment_plus_time m2 (-dsec) (-dns) = .ok m := by
  obtain ⟨hn1, hn2, _, _, hr1, hr2⟩ := hv
  simp only [moment_plus_time, NANOS_PER_SEC] at h ⊢
  simp only [NANOS_PER_SEC] at hn2
  obtain ⟨hm, _, _⟩ := moment_from_local_ok h
  subst hm
  obtain ⟨k1, k2⟩ := carry_roundtrip hn1 hn2
  dsimp only
  rw [k1, k2,
    show m.sec + dsec + (m.nsec + dns) / 1000000000 + -dsec +
        -((m.nsec + dns) / 1000000000) = m.sec from by ring]
  unfold moment_from_local
  rw [if_pos ⟨hr1, hr2⟩]

theorem moment_new_valid {Y M D h mi s ns off : Int} {m2 : moment_t}
    (hh : moment_new Y M D h mi s ns off = .ok m2) : moment_valid m2 := by
  unfold moment_new at hh
  split at hh
  case isFalse => exact Except.noConfusion hh
  case isTrue hc =>
    split at hh
    case isFalse => exact Except.noConfusion hh
    case isTrue hc2 =>
      obtain ⟨_, _, _, _, _, _, _, _, _, _, _, _, h13, h14⟩ := hc
      refine moment_from_local_valid hh h13 ?_ hc2.1 hc2.2
      simp only [NANOS_PER_SEC]
      omega

theorem moment_from_epoch_valid {sec ns off : Int} {m2 : moment_t}
    (h : moment_from_epoch sec ns off = .ok m2) : moment_valid m2 := by
  unfold moment_from_epoch at h
  split at h
  case isFalse => exact Except.noConfusion h
  case isTrue =>
    split at h
    case isFalse => exact Except.noConfusion h
    case isTrue hns =>
      split at h
      case isFalse => exact Except.noConfusion h
      case isTrue hoff =>
        exact moment_from_local_valid h hns.1 hns.2 hoff.1 hoff.2

theorem round_half_even_bounds (q : ℚ) :
    ⌊q⌋ ≤ round_half_even q ∧ round_half_even q ≤ ⌊q⌋ + 1 := by
  unfold round_half_even
  dsimp only
  repeat' split
  all_goals omega

theorem moment_from_epoch_nv_valid {sec : ℚ} {m2 : moment_t}
    (h : moment_from_epoch_nv sec = .ok m2) : moment_valid m2 := by
  simp only [moment_from_epoch_nv] at h
  have hf0 : (0 : ℚ) ≤ sec - ⌊sec⌋ := sub_nonneg.mpr (Int.floor_le sec)
  have hf1 : sec - ⌊sec⌋ < 1 := by
    have := Int.lt_floor_add_one sec
    linarith
  have hr0 : (0 : ℚ) ≤ (sec - ⌊sec⌋) * 1000000000 :=
    mul_nonneg hf0 (by norm_num)
  have hr1 : (sec - ⌊sec⌋) * 1000000000 < 1000000000 := by
    have := mul_lt_mul_of_pos_right hf1
      (show (0 : ℚ) < 1000000000 by norm_num)
    linarith
  have hfl0 : 0 ≤ ⌊(sec - ⌊sec⌋) * 1000000000⌋ := Int.floor_nonneg.mpr hr0
  have hfl1 : ⌊(sec - ⌊sec⌋) * 1000000000⌋ < 1000000000 := by
    refine Int.floor_lt.mpr ?_
    push_cast
    linarith
  obtain ⟨hb1, hb2⟩ := round_half_even_bounds ((sec - ⌊sec⌋) * 1000000000)
  by_cases hc : round_half_even ((sec - ⌊sec⌋) * 1000000000) = 1000000000
  · simp only [if_pos hc] at h
    split at h
    · refine moment_from_local_valid h (by omega) ?_ (by omega) (by omega)
      simp only [NANOS_PER_SEC]
      omega
    · exact Except.noConfusion h
  · simp only [if_neg hc] at h
    split at h
    · refine moment_from_local_valid h (by omega) ?_ (by omega) (by omega)
      simp only [NANOS_PER_SEC]
      omega
    · exact Except.noConfusion h

theorem moment_from_jd_valid {jd epoch : ℚ} {precision : Int}
    {m2 : moment_t} (h : moment_from_jd jd epoch precision = .ok m2) :
    moment_valid m2 := by
  simp only [moment_from_jd] at h
  refine moment_from_local_valid h ?_ ?_ (by omega) (by omega)
  · exact Int.emod_nonneg _ (by omega)
  · simp only [NANOS_PER_SEC]
    exact Int.emod_lt_of_pos _ (by omega)

theorem moment_with_offset_same_instant_valid {m m2 : moment_t} {o : Int}
    (hv : moment_valid m)
    (h : moment_with_offset_same_instant m o = .ok m2) : moment_valid m2 := by
  obtain ⟨hn1, hn2, _, _, _, _⟩ := hv
  unfold moment_with_offset_same_instant at h
  split at h
  case isFalse => exact Except.noConfusion h
  case isTrue hc => exact moment_from_local_valid h hn1 hn2 hc.1 hc.2

theorem moment_with_offset_same_local_valid {m m2 : moment_t} {o : Int}
    (hv : moment_valid m)
    (h : moment_with_offset_same_local m o = .ok m2) : moment_valid m2 := by
  obtain ⟨hn1, hn2, _, _, _, _⟩ := hv
  unfold moment_with_offset_same_local at h
  split at h
  case isFalse => exact Except.noConfusion h
  case isTrue hc => exact moment_from_local_valid h hn1 hn2 hc.1 hc.2

theorem moment_at_midnight_valid {m m2 : moment_t} (hv : moment_valid m)
    (h : moment_at_midnight m = .ok m2) : moment_valid m2 := by
  obtain ⟨_, _, ho1, ho2, _, _⟩ := hv
  unfold moment_at_midnight at h
  refine moment_from_local_valid h (by omega) ?_ ho1 ho2
  simp only [NANOS_PER_SEC]
  omega

theorem moment_at_noon_valid {m m2 : moment_t} (hv : moment_valid m)
    (h : moment_at_noon m = .ok m2) : moment_valid m2 := by
  obtain ⟨_, _, ho1, ho2, _, _⟩ := hv
  unfold moment_at_noon at h
  refine moment_from_local_valid h (by omega) ?_ ho1 ho2
  simp only [NANOS_PER_SEC]
  omega

theorem moment_at_last_day_of_month_valid {m m2 : moment_t}
    (hv : moment_valid m) (h : moment_at_last_day_of_month m = .ok m2) :
    moment_valid m2 := by
  obtain ⟨hn1, hn2, ho1, ho2, _, _⟩ := hv
  unfold moment_at_last_day_of_month at h
  exact moment_from_local_valid h hn1 hn2 ho1 ho2

theorem moment_at_last_day_of_quarter_valid {m m2 : moment_t}
    (hv : moment_valid m) (h : moment_at_last_day_of_quarter m = .ok m2) :
    moment_valid m2 := by
  obtain ⟨hn1, hn2, ho1, ho2, _, _⟩ := hv
  unfold moment_at_last_day_of_quarter at h
  exact moment_from_local_valid h hn1 hn2 ho1 ho2

theorem moment_at_last_day_of_year_valid {m m2 : moment_t}
    (hv : moment_valid m) (h : moment_at_last_day_of_year m = .ok m2) :
    moment_valid m2 := by
  obtain ⟨hn1, hn2, ho1, ho2, _, _⟩ := hv
  unfold moment_at_last_day_of_year at h
  exact moment_from_local_valid h hn1 hn2 ho1 ho2

theorem moment_with_component_valid {m m2 : moment_t}
    {c : moment_component_t} {v : Int} (hv : moment_valid m)
    (h : moment_with_component m c v = .ok m2) : moment_valid m2 := by
  obtain ⟨hn1, hn2, ho1, ho2, _, _⟩ := hv
  cases c
  all_goals simp only [moment_with_component] at h
  case MOMENT_COMPONENT_WEEK_OF_YEAR => exact Except.noConfusion h
  case MOMENT_COMPONENT_MILLI_OF_SECOND =>
    split at h
    case isFalse => exact Except.noConfusion h
    case isTrue hc =>
      have e1 : 0 ≤ m.nsec % 1000000 :=
        Int.emod_nonneg _ (by omega)
      have e2 : m.nsec % 1000000 < 1000000 :=
        Int.emod_lt_of_pos _ (by omega)
      refine moment_from_local_valid h ?_ ?_ ho1 ho2 <;>
        · try simp only [NANOS_PER_SEC]
          omega
  case MOMENT_COMPONENT_MICRO_OF_SECOND =>
    split at h
    case isFalse => exact Except.noConfusion h
    case isTrue hc =>
      have e1 : 0 ≤ m.nsec % 1000 := Int.emod_nonneg _ (by omega)
      have e2 : m.nsec % 1000 < 1000 := Int.emod_lt_of_pos _ (by omega)
      refine moment_from_local_valid h ?_ ?_ ho1 ho2 <;>
        · try simp only [NANOS_PER_SEC]
          omega
  case MOMENT_COMPONENT_MILLI_OF_DAY =>
    split at h
    case isFalse => exact Except.noConfusion h
    case isTrue hc =>
      have e1 : 0 ≤ v % 1000 := Int.emod_nonneg _ (by omega)
      have e2 : v % 1000 < 1000 := Int.emod_lt_of_pos _ (by omega)
      refine moment_from_local_valid h ?_ ?_ ho1 ho2 <;>
        · try simp only [NANOS_PER_SEC]
          omega
  case MOMENT_COMPONENT_NANO_OF_SECOND =>
    split at h
    case isFalse => exact Except.noConfusion h
    case isTrue hc =>
      refine moment_from_local_valid h hc.1 ?_ ho1 ho2
      simp only [NANOS_PER_SEC]
      omega
  all_goals split at h
  all_goals try exact Except.noConfusion h
  all_goals exact moment_from_local_valid h hn1 hn2 ho1 ho2

theorem moment_minus_unit_valid {m m2 : moment_t} {u : moment_unit_t}
    {v : Int} (hv : moment_valid m)
    (h : moment_minus_unit m u v = .ok m2) : moment_valid m2 := by
  unfold moment_minus_unit at h
  exact moment_plus_unit_valid hv h

theorem moment_at_utc_valid {m m2 : moment_t} (hv : moment_valid m)
    (h : moment_at_utc m = .ok m2) : moment_valid m2 := by
  unfold moment_at_utc at h
  exact moment_with_offset_same_instant_valid hv h

/-! ## Claims -/

/-- Claim C1: every moment observable through the public operations — the
four constructors (from fields, from integer epoch seconds, from a
real-valued epoch second, from a Julian date) and every
with/plus/minus/at operation that returns successfully — satisfies the
stored-field invariants: nanoseconds in `[0, 1e9)`, offset in
`[-1440, 1440]`, and UTC instant within the epoch range. -/
theorem claim_c1_observable_invariants :
    (∀ Y M D h mi s ns off : Int, ∀ m2 : moment_t,
      moment_new Y M D h mi s ns off = .ok m2 → moment_valid m2) ∧
    (∀ sec ns off : Int, ∀ m2 : moment_t,
      moment_from_epoch sec ns off = .ok m2 → moment_valid m2) ∧
    (∀ sec : ℚ, ∀ m2 : moment_t,
      moment_from_epoch_nv sec = .ok m2 → moment_valid m2) ∧
    (∀ (jd epoch : ℚ) (precision : Int), ∀ m2 : moment_t,
      moment_from_jd jd epoch precision = .ok m2 → moment_valid m2) ∧
    (∀ (m : moment_t) (o : Int) (m2 : moment_t), moment_valid m →
      moment_with_offset_same_instant m o = .ok m2 → moment_valid m2) ∧
    (∀ (m : moment_t) (o : Int) (m2 : moment_t), moment_valid m →
      moment_with_offset_same_local m o = .ok m2 → moment_valid m2) ∧
    (∀ (m : moment_t) (c : moment_component_t) (v : Int) (m2 : moment_t),
      moment_valid m → moment_with_component m c v = .ok m2 →
      moment_valid m2) ∧
    (∀ (m : moment_t) (u : moment_unit_t) (v : Int) (m2 : moment_t),
      moment_valid m → moment_plus_unit m u v = .ok m2 → moment_valid m2) ∧
    (∀ (m : moment_t) (u : moment_unit_t) (v : Int) (m2 : moment_t),
      moment_valid m → moment_minus_unit m u v = .ok m2 → moment_valid m2) ∧
    (∀ m m2 : moment_t, moment_valid m →
      moment_at_utc m = .ok m2 → moment_valid m2) ∧
    (∀ m m2 : moment_t, moment_valid m →
      moment_at_midnight m = .ok m2 → moment_valid m2) ∧
    (∀ m m2 : moment_t, moment_valid m →
      moment_at_noon m = .ok m2 → moment_valid m2) ∧
    (∀ m m2 : moment_t, moment_valid m →
      moment_at_last_day_of_month m = .ok m2 → moment_valid m2) ∧
    (∀ m m2 : moment_t, moment_valid m →
      moment_at_last_day_of_quarter m = .ok m2 → moment_valid m2) ∧
    (∀ m m2 : moment_t, moment_valid m →
      moment_at_last_day_of_year m = .ok m2 → moment_valid m2) :=
  ⟨fun _ _ _ _ _ _ _ _ _ h => moment_new_valid h,
   fun _ _ _ _ h => moment_from_epoch_valid h,
   fun _ _ h => moment_from_epoch_nv_valid h,
   fun _ _ _ _ h => moment_from_jd_valid h,
   fun _ _ _ hv h => moment_with_offset_same_instant_valid hv h,
   fun _ _ _ hv h => moment_with_offset_same_local_valid hv h,
   fun _ _ _ _ hv h => moment_with_component_valid hv h,
   fun _ _ _ _ hv h => moment_plus_unit_valid hv h,
   fun _ _ _ _ hv h => moment_minus_unit_valid hv h,
   fun _ _ hv h => moment_at_utc_valid hv h,
   fun _ _ hv h => moment_at_midnight_valid hv h,
   fun _ _ hv h => moment_at_noon_valid hv h,
   fun _ _ hv h => moment_at_last_day_of_month_valid hv h,
   fun _ _ hv h => moment_at_last_day_of_quarter_valid hv h,
   fun _ _ hv h => moment_at_last_day_of_year_valid hv h⟩

/-- Witness for C1: the moment built for 2000-01-01T00:00:00Z is valid. -/
theorem claim_c1_witness : moment_valid ⟨63082368000, 0, 0⟩ :=
  claim_c1_observable_invariants.1 2000 1 1 0 0 0 0 0 ⟨63082368000, 0, 0⟩
    (by decide)

/-- Claim C9: the numeric constants the code defines equal the values the
spec's compatibility surface lists. -/
theorem claim_c9_constants :
    SECS_PER_DAY = 86400 ∧ NANOS_PER_SEC = 1000000000 ∧
    UNIX_EPOCH = 62135683200 ∧ MIN_EPOCH_SEC = -62135596800 ∧
    MAX_EPOCH_SEC = 253402300799 ∧
    MIN_UNIT_YEARS = -10000 ∧ MAX_UNIT_YEARS = 10000 ∧
    MIN_UNIT_MONTHS = -120000 ∧ MAX_UNIT_MONTHS = 120000 ∧
    MIN_UNIT_WEEKS = -521775 ∧ MAX_UNIT_WEEKS = 521775 ∧
    MIN_UNIT_DAYS = -3652425 ∧ MAX_UNIT_DAYS = 3652425 ∧
    MIN_UNIT_HOURS = -87658200 ∧ MAX_UNIT_HOURS = 87658200 ∧
    MIN_UNIT_MINUTES = -5259492000 ∧ MAX_UNIT_MINUTES = 5259492000 ∧
    MIN_UNIT_SECONDS = -315569520000 ∧ MAX_UNIT_SECONDS = 315569520000 ∧
    MIN_UNIT_MILLIS = -315569520000000 ∧ MAX_UNIT_MILLIS = 315569520000000 ∧
    MIN_UNIT_MICROS = -315569520000000000 ∧
    MAX_UNIT_MICROS = 315569520000000000 := by
  decide

/-- Claim C10: the internal Rata-Die-seconds bounds are the Unix-epoch
bounds shifted by the epoch constant, and the internal range check accepts
exactly the instants whose Unix epoch second passes `VALID_EPOCH_SEC`. -/
theorem claim_c10_range_equivalence :
    MIN_RANGE = MIN_EPOCH_SEC + UNIX_EPOCH ∧ MIN_RANGE = 86400 ∧
    MAX_RANGE = MAX_EPOCH_SEC + UNIX_EPOCH ∧ MAX_RANGE = 315537983999 ∧
    ∀ i : Int, (MIN_RANGE ≤ i ∧ i ≤ MAX_RANGE) ↔
      VALID_EPOCH_SEC (i - UNIX_EPOCH) = true := by
  refine ⟨by decide, by decide, by decide, by decide, fun i => ?_⟩
  unfold VALID_EPOCH_SEC MIN_RANGE MAX_RANGE MIN_EPOCH_SEC MAX_EPOCH_SEC
    UNIX_EPOCH
  simp only [Bool.and_eq_true, decide_eq_true_eq]
  omega

/-- Claim C7: structural equality holds exactly when all three fields
agree; instant comparison is lexicographic on `(sec - offset*60, nsec)`;
and two valid moments can be instant-equal without being equal. -/
theorem claim_c7_equals_vs_instant :
    (∀ a b : moment_t, moment_equals a b = true ↔
      a.sec = b.sec ∧ a.nsec = b.nsec ∧ a.offset = b.offset) ∧
    (∀ a b : moment_t, moment_compare_instant a b = 0 ↔
      a.sec - a.offset * 60 = b.sec - b.offset * 60 ∧ a.nsec = b.nsec) ∧
    (∀ a b : moment_t, moment_compare_instant a b = -1 ↔
      (a.sec - a.offset * 60 < b.sec - b.offset * 60 ∨
        (a.sec - a.offset * 60 = b.sec - b.offset * 60 ∧ a.nsec < b.nsec))) ∧
    (∀ a b : moment_t, moment_compare_instant a b = 1 ↔
      (b.sec - b.offset * 60 < a.sec - a.offset * 60 ∨
        (a.sec - a.offset * 60 = b.sec - b.offset * 60 ∧ b.nsec < a.nsec))) ∧
    (∃ a b : moment_t, moment_valid a ∧ moment_valid b ∧
      moment_compare_instant a b = 0 ∧ moment_equals a b = false) := by
  refine ⟨fun a b => ?_, fun a b => ?_, fun a b => ?_, fun a b => ?_,
    ⟨⟨62135686800, 0, 60⟩, ⟨62135683200, 0, 0⟩, by decide, by decide,
      by decide, by decide⟩⟩
  · simp only [moment_equals, Bool.and_eq_true, beq_iff_eq, and_assoc]
  all_goals
    unfold moment_compare_instant
    repeat' split
    all_goals omega

/-- Claim C4: adding twelve months and adding one year are the same
operation on every moment for which both succeed. -/
theorem claim_c4_months12_eq_years1 (m a b : moment_t)
    (ha : moment_plus_unit m .MOMENT_UNIT_MONTHS 12 = .ok a)
    (hb : moment_plus_unit m .MOMENT_UNIT_YEARS 1 = .ok b) : a = b := by
  have h12 : moment_plus_unit m .MOMENT_UNIT_MONTHS 12 =
      moment_plus_unit m .MOMENT_UNIT_YEARS 1 := by
    unfold moment_plus_unit
    rw [if_pos (show MIN_UNIT_MONTHS ≤ (12 : Int) ∧ (12 : Int) ≤
          MAX_UNIT_MONTHS from by decide),
      if_pos (show MIN_UNIT_YEARS ≤ (1 : Int) ∧ (1 : Int) ≤
          MAX_UNIT_YEARS from by decide)]
    norm_num
  rw [h12, hb] at ha
  injection ha with ha
  exact ha.symm

/-- Witness for C4 at 1970-01-01T00:00:00Z. -/
theorem claim_c4_witness :
    (⟨62167219200, 0, 0⟩ : moment_t) = ⟨62167219200, 0, 0⟩ :=
  claim_c4_months12_eq_years1 ⟨62135683200, 0, 0⟩ _ _ (by decide) (by decide)

/-- Claim C6: a valid moment round-trips through `from_epoch` fed with its
own epoch second, nanosecond and offset, because `from_epoch` stores
`unix_sec + UNIX_EPOCH_CONST + offset*60` while `moment_epoch` returns
`sec - offset*60 - UNIX_EPOCH_CONST`. -/
theorem claim_c6_epoch_roundtrip (m : moment_t) (hv : moment_valid m) :
    moment_from_epoch (moment_epoch m) m.nsec m.offset = .ok m ∧
    moment_epoch m = m.sec - m.offset * 60 - UNIX_EPOCH ∧
    (∀ sec nsec off : Int, ∀ m2 : moment_t,
      moment_from_epoch sec nsec off = .ok m2 →
      m2.sec = sec + UNIX_EPOCH + off * 60) := by
  obtain ⟨hn1, hn2, ho1, ho2, hr1, hr2⟩ := hv
  simp only [moment_instant_rd_seconds, MIN_RANGE, MAX_RANGE] at hr1 hr2
  simp only [NANOS_PER_SEC] at hn2
  refine ⟨?_, rfl, ?_⟩
  · unfold moment_from_epoch moment_from_local moment_epoch VALID_EPOCH_SEC
    unfold UNIX_EPOCH MIN_EPOCH_SEC MAX_EPOCH_SEC NANOS_PER_SEC MIN_RANGE
      MAX_RANGE
    rw [if_pos (by simp only [Bool.and_eq_true, decide_eq_true_eq]; omega),
      if_pos ⟨hn1, by omega⟩, if_pos ⟨ho1, ho2⟩,
      if_pos (by constructor <;> omega)]
    rw [show m.sec - m.offset * 60 - 62135683200 + 62135683200 +
        m.offset * 60 = m.sec from by ring]
  · intro sec nsec off m2 h
    unfold moment_from_epoch at h
    split at h
    · split at h
      · split at h
        · exact congrArg moment_t.sec (moment_from_local_ok h).1
        · exact Except.noConfusion h
      · exact Except.noConfusion h
    · exact Except.noConfusion h

/-- Witness for C6 at 1970-01-01T00:00:00Z. -/
theorem claim_c6_witness :
    moment_from_epoch (moment_epoch ⟨62135683200, 0, 0⟩) 0 0 =
      .ok ⟨62135683200, 0, 0⟩ :=
  (claim_c6_epoch_roundtrip ⟨62135683200, 0, 0⟩ (by decide)).1

/-- Claim C5: a same-instant offset change to an in-range offset shifts
`sec` by `(new - old)*60`, keeps `nsec`, stores the new offset, preserves
the Unix epoch second, and compares instant-equal with the original. -/
theorem claim_c5_same_instant (m : moment_t) (o : Int) (m2 : moment_t)
    (hv : moment_valid m) (ho : -1440 ≤ o ∧ o ≤ 1440)
    (h : moment_with_offset_same_instant m o = .ok m2) :
    m2.sec = m.sec + (o - m.offset) * 60 ∧ m2.nsec = m.nsec ∧
    m2.offset = o ∧ moment_epoch m2 = moment_epoch m ∧
    moment_compare_instant m m2 = 0 := by
  unfold moment_with_offset_same_instant at h
  rw [if_pos ho] at h
  obtain ⟨hm, _, _⟩ := moment_from_local_ok h
  subst hm
  refine ⟨rfl, rfl, rfl, ?_, ?_⟩
  · unfold moment_epoch
    dsimp only
    ring_nf
  · unfold moment_compare_instant
    dsimp only
    repeat' split
    all_goals omega

/-- Claim C3: for every fixed-width unit, an in-range addition that
succeeds is undone exactly by the matching subtraction. -/
theorem claim_c3_fixed_width_roundtrip (m m2 : moment_t)
    (u : moment_unit_t) (v : Int) (hu : fixed_width_unit u = true)
    (hv : moment_valid m) (hr : unit_in_range u v = true)
    (h : moment_plus_unit m u v = .ok m2) :
    moment_minus_unit m2 u v = .ok m := by
  unfold moment_minus_unit
  cases u
  case MOMENT_UNIT_YEARS => exact absurd hu (by decide)
  case MOMENT_UNIT_MONTHS => exact absurd hu (by decide)
  all_goals simp only [moment_plus_unit] at h ⊢
  case MOMENT_UNIT_NANOS =>
    have h2 := moment_plus_time_roundtrip hv h
    rwa [neg_zero] at h2
  case MOMENT_UNIT_WEEKS =>
    split at h
    case isFalse => exact Except.noConfusion h
    case isTrue hc =>
      rw [if_pos (show MIN_UNIT_WEEKS ≤ -v ∧ -v ≤ MAX_UNIT_WEEKS by
        simp only [MIN_UNIT_WEEKS, MAX_UNIT_WEEKS] at hc ⊢; omega)]
      have h2 := moment_plus_time_roundtrip hv h
      rw [neg_zero] at h2
      rwa [show -v * 7 * 86400 = -(v * 7 * 86400) from by ring]
  case MOMENT_UNIT_DAYS =>
    split at h
    case isFalse => exact Except.noConfusion h
    case isTrue hc =>
      rw [if_pos (show MIN_UNIT_DAYS ≤ -v ∧ -v ≤ MAX_UNIT_DAYS by
        simp only [MIN_UNIT_DAYS, MAX_UNIT_DAYS] at hc ⊢; omega)]
      have h2 := moment_plus_time_roundtrip hv h
      rw [neg_zero] at h2
      rwa [show -v * 86400 = -(v * 86400) from by ring]
  case MOMENT_UNIT_HOURS =>
    split at h
    case isFalse => exact Except.noConfusion h
    case isTrue hc =>
      rw [if_pos (show MIN_UNIT_HOURS ≤ -v ∧ -v ≤ MAX_UNIT_HOURS by
        simp only [MIN_UNIT_HOURS, MAX_UNIT_HOURS] at hc ⊢; omega)]
      have h2 := moment_plus_time_roundtrip hv h
      rw [neg_zero] at h2
      rwa [show -v * 3600 = -(v * 3600) from by ring]
  case MOMENT_UNIT_MINUTES =>
    split at h
    case isFalse => exact Except.noConfusion h
    case isTrue hc =>
      rw [if_pos (show MIN_UNIT_MINUTES ≤ -v ∧ -v ≤ MAX_UNIT_MINUTES by
        simp only [MIN_UNIT_MINUTES, MAX_UNIT_MINUTES] at hc ⊢; omega)]
      have h2 := moment_plus_time_roundtrip hv h
      rw [neg_zero] at h2
      rwa [show -v * 60 = -(v * 60) from by ring]
  case MOMENT_UNIT_SECONDS =>
    split at h
    case isFalse => exact Except.noConfusion h
    case isTrue hc =>
      rw [if_pos (show MIN_UNIT_SECONDS ≤ -v ∧ -v ≤ MAX_UNIT_SECONDS by
        simp only [MIN_UNIT_SECONDS, MAX_UNIT_SECONDS] at hc ⊢; omega)]
      have h2 := moment_plus_time_roundtrip hv h
      rwa [neg_zero] at h2
  case MOMENT_UNIT_MILLIS =>
    split at h
    case isFalse => exact Except.noConfusion h
    case isTrue hc =>
      rw [if_pos (show MIN_UNIT_MILLIS ≤ -v ∧ -v ≤ MAX_UNIT_MILLIS by
        simp only [MIN_UNIT_MILLIS, MAX_UNIT_MILLIS] at hc ⊢; omega)]
      have h2 := moment_plus_time_roundtrip hv h
      rw [neg_zero] at h2
      rwa [show -v * 1000000 = -(v * 1000000) from by ring]
  case MOMENT_UNIT_MICROS =>
    split at h
    case isFalse => exact Except.noConfusion h
    case isTrue hc =>
      rw [if_pos (show MIN_UNIT_MICROS ≤ -v ∧ -v ≤ MAX_UNIT_MICROS by
        simp only [MIN_UNIT_MICROS, MAX_UNIT_MICROS] at hc ⊢; omega)]
      have h2 := moment_plus_time_roundtrip hv h
      rw [neg_zero] at h2
      rwa [show -v * 1000 = -(v * 1000) from by ring]

/-- Witness for C3: one day forward and back across 1970-01-01. -/
theorem claim_c3_witness :
    moment_minus_unit ⟨62135769600, 0, 0⟩ .MOMENT_UNIT_DAYS 1 =
      .ok ⟨62135683200, 0, 0⟩ :=
  claim_c3_fixed_width_roundtrip ⟨62135683200, 0, 0⟩ ⟨62135769600, 0, 0⟩
    .MOMENT_UNIT_DAYS 1 (by decide) (by decide) (by decide) (by decide)

/-- Claim C8 counterexample: the header defines no MIN/MAX_UNIT constants
for the nanoseconds unit, and the largest int64 nanosecond scalar is
accepted by plus_unit rather than rejected as UnitOutOfRange. -/
theorem claim_c8_counterexample :
    unit_min_max .MOMENT_UNIT_NANOS = none ∧
    moment_plus_unit ⟨62135683200, 0, 0⟩ .MOMENT_UNIT_NANOS
      9223372036854775807 = .ok ⟨71359055236, 854775807, 0⟩ :=
  ⟨rfl, by decide⟩

/-- Claim C8 (amended): every unit with header MIN/MAX constants — all
except nanoseconds — rejects an out-of-range scalar with UnitOutOfRange on
both plus_unit and minus_unit, for every moment; the nanoseconds unit is
never rejected as UnitOutOfRange. -/
theorem claim_c8_unit_ranges :
    (∀ (m : moment_t) (u : moment_unit_t) (lo hi v : Int),
      unit_min_max u = some (lo, hi) → (v < lo ∨ hi < v) →
      moment_plus_unit m u v = .error .UnitOutOfRange ∧
      moment_minus_unit m u v = .error .UnitOutOfRange) ∧
    (∀ (m : moment_t) (v : Int),
      moment_plus_unit m .MOMENT_UNIT_NANOS v ≠ .error .UnitOutOfRange) := by
  constructor
  · intro m u lo hi v hu hv
    unfold moment_minus_unit
    cases u
    all_goals simp only [unit_min_max, Option.some.injEq, Prod.mk.injEq] at hu
    case MOMENT_UNIT_NANOS => exact Option.noConfusion hu
    all_goals obtain ⟨rfl, rfl⟩ := hu
    all_goals simp only [moment_plus_unit]
    all_goals refine ⟨if_neg ?_, if_neg ?_⟩
    all_goals
      simp only [MIN_UNIT_YEARS, MAX_UNIT_YEARS, MIN_UNIT_MONTHS,
        MAX_UNIT_MONTHS, MIN_UNIT_WEEKS, MAX_UNIT_WEEKS, MIN_UNIT_DAYS,
        MAX_UNIT_DAYS, MIN_UNIT_HOURS, MAX_UNIT_HOURS, MIN_UNIT_MINUTES,
        MAX_UNIT_MINUTES, MIN_UNIT_SECONDS, MAX_UNIT_SECONDS,
        MIN_UNIT_MILLIS, MAX_UNIT_MILLIS, MIN_UNIT_MICROS,
        MAX_UNIT_MICROS] at hv ⊢
    all_goals omega
  · intro m v h
    simp only [moment_plus_unit, moment_plus_time, moment_from_local] at h
    split at h
    · exact Except.noConfusion h
    · injection h with h
      exact MomentError.noConfusion h

/-- Witness for C8 (amended) at the days unit, one past its maximum. -/
theorem claim_c8_witness :
    moment_plus_unit ⟨62135683200, 0, 0⟩ .MOMENT_UNIT_DAYS 3652426 =
        .error .UnitOutOfRange ∧
      moment_minus_unit ⟨62135683200, 0, 0⟩ .MOMENT_UNIT_DAYS 3652426 =
        .error .UnitOutOfRange :=
  claim_c8_unit_ranges.1 ⟨62135683200, 0, 0⟩ .MOMENT_UNIT_DAYS
    MIN_UNIT_DAYS MAX_UNIT_DAYS 3652426 rfl (by decide)

/-- Claim C2: an in-range month addition (and a year addition, which is
the same operation at twelve times the scalar) decomposes the local wall
time, advances the month count by integer arithmetic, clamps the day of
month to the target month's length and preserves time-of-day, nanoseconds
and offset; concretely 2012-02-29 plus one year is 2013-02-28. -/
theorem claim_c2_calendar_plus :
    (∀ (m m2 : moment_t) (v : Int),
      MIN_UNIT_MONTHS ≤ v ∧ v ≤ MAX_UNIT_MONTHS →
      moment_plus_unit m .MOMENT_UNIT_MONTHS v = .ok m2 →
      (let rdn := m.sec / SECS_PER_DAY
       let sod := m.sec % SECS_PER_DAY
       let ymd := ymd_from_rdn rdn
       let total := ymd.1 * 12 + (ymd.2.1 - 1) + v
       let y2 := total / 12
       let mo2 := total % 12 + 1
       let d2 := min ymd.2.2 (length_of_month y2 mo2)
       m2.sec = dt_from_ymd y2 mo2 d2 * SECS_PER_DAY + sod ∧
       m2.nsec = m.nsec ∧ m2.offset = m.offset)) ∧
    (∀ v : Int, MIN_UNIT_YEARS ≤ v ∧ v ≤ MAX_UNIT_YEARS →
      ∀ m : moment_t, moment_plus_unit m .MOMENT_UNIT_YEARS v =
        moment_plus_unit m .MOMENT_UNIT_MONTHS (v * 12)) ∧
    (((moment_new 2012 2 29 0 0 0 0 0).bind
        (fun m0 => moment_plus_unit m0 .MOMENT_UNIT_YEARS 1)).map
      (fun m1 => (moment_year m1, moment_month m1, moment_day_of_month m1)) =
      .ok (2013, 2, 28)) := by
  refine ⟨?_, ?_, by decide⟩
  · intro m m2 v hr h
    simp only [moment_plus_unit] at h
    rw [if_pos hr] at h
    unfold moment_plus_months at h
    obtain ⟨hm, _, _⟩ := moment_from_local_ok h
    subst hm
    exact ⟨rfl, rfl, rfl⟩
  · intro v hval m
    simp only [moment_plus_unit]
    rw [if_pos hval, if_pos (show MIN_UNIT_MONTHS ≤ v * 12 ∧
        v * 12 ≤ MAX_UNIT_MONTHS by
      simp only [MIN_UNIT_MONTHS, MAX_UNIT_MONTHS, MIN_UNIT_YEARS,
        MAX_UNIT_YEARS] at hval ⊢
      omega)]

/-- Witness for C2: 2000-01-01T00:00:00.000000005+00:30 plus one month. -/
theorem claim_c2_witness :
    (⟨63085046400, 5, 30⟩ : moment_t).nsec =
        (⟨63082368000, 5, 30⟩ : moment_t).nsec ∧
      (⟨63085046400, 5, 30⟩ : moment_t).offset =
        (⟨63082368000, 5, 30⟩ : moment_t).offset :=
  ⟨(claim_c2_calendar_plus.1 ⟨63082368000, 5, 30⟩ ⟨63085046400, 5, 30⟩ 1
      (by decide) (by decide)).2.1,
    (claim_c2_calendar_plus.1 ⟨63082368000, 5, 30⟩ ⟨63085046400, 5, 30⟩ 1
      (by decide) (by decide)).2.2⟩

/-- Witness for C5: move 1970-01-01T00:00:00Z to offset +90. -/
theorem claim_c5_witness :
    (⟨62135688600, 7, 90⟩ : moment_t).sec =
        (⟨62135683200, 7, 0⟩ : moment_t).sec + (90 - 0) * 60 ∧
    (⟨62135688600, 7, 90⟩ : moment_t).nsec = 7 ∧
    (⟨62135688600, 7, 90⟩ : moment_t).offset = 90 ∧
    moment_epoch ⟨62135688600, 7, 90⟩ = moment_epoch ⟨62135683200, 7, 0⟩ ∧
    moment_compare_instant ⟨62135683200, 7, 0⟩ ⟨62135688600, 7, 90⟩ = 0 := by
  have h := claim_c5_same_instant ⟨62135683200, 7, 0⟩ 90 ⟨62135688600, 7, 90⟩
    (by decide) (by decide) (by decide)
  exact ⟨h.1, h.2.1, h.2.2.1, h.2.2.2.1, h.2.2.2.2⟩

end TimeMoment
